import Mathlib

/-!
Shallow embedding of the overlay crate (`src/overlay/src/lib.rs`) of the
Valthrun repository: window creation, `init`, the frame-orchestration
`main_loop`, and the `SystemRuntimeController` methods.

Only `lib.rs` is available as source.  The sibling modules it uses
(`font::FontAtlasBuilder`, `window_tracker::WindowTracker`, the input
systems, `perf::PerfTracker`, the Vulkan backend) are modelled from the
specification where their behaviour matters; each such definition carries a
doc comment starting with `Modelled from the spec:`.

External effects (OS calls, the winit event loop, the caller's callbacks)
are made explicit: per-event environment records script the outcomes of
external calls, and the loop body returns a trace of phase events so that
ordering properties can be stated.
-/

namespace Overlay

/-- Screen rectangle (position and size), as used by the window tracker. -/
structure Rect where
  left : Int
  top : Int
  width : Int
  height : Int
  deriving DecidableEq, Repr

/-- The overlay target variants from `window_tracker::OverlayTarget`
(re-exported by `lib.rs`): a specific foreign window, or a fixed rectangle. -/
inductive OverlayTarget where
  | window (handle : Nat)
  | rectangle (bounds : Rect)
  deriving DecidableEq, Repr

/-- Identifiers for font byte blobs.  The three bundled resource files
embedded by `init` are distinguished constructors; caller-supplied blobs get
numeric ids.  The bytes themselves are opaque to the orchestration logic. -/
inductive FontFile where
  | robotoRegular
  | notoSansTC
  | unifont
  | user (id : Nat)
  deriving DecidableEq, Repr

/-- A font-source descriptor produced by a build: a source blob together with
the pixel size it was sized to (`size_pixels`). -/
abbrev FontEntry := FontFile × ℚ

/-- Modelled from the spec: `font::FontAtlasBuilder` (module `font` is not
under `src/`).  It owns an ordered sequence of registered font-source blobs
(insertion order = fallback priority), the requested codepoint ranges, and a
dirty flag set whenever a source or range is added after the last build. -/
structure FontAtlasBuilder where
  sources : List FontFile
  ranges : List (Nat × Nat)
  dirty : Bool
  deriving DecidableEq, Repr

/-- Modelled from the spec: a fresh builder with nothing registered. -/
def FontAtlasBuilder.new : FontAtlasBuilder :=
  { sources := [], ranges := [], dirty := false }

/-- Modelled from the spec: registering a font source appends the blob
(insertion order = fallback priority) and sets the dirty flag.  Parsing of
the bundled, well-formed font files cannot fail, so the `Result` wrapper of
the Rust signature is dropped. -/
def FontAtlasBuilder.register_font (b : FontAtlasBuilder) (f : FontFile) :
    FontAtlasBuilder :=
  { b with sources := b.sources ++ [f], dirty := true }

/-- Modelled from the spec: registering a codepoint range (the Rust range
`lo..hi`, half-open) records it and sets the dirty flag. -/
def FontAtlasBuilder.register_codepoints (b : FontAtlasBuilder)
    (lo hi : Nat) : FontAtlasBuilder :=
  { b with ranges := b.ranges ++ [(lo, hi)], dirty := true }

/-- Modelled from the spec: query-and-clear the dirty flag — returns the
current flag and resets it to `false`. -/
def FontAtlasBuilder.fetch_reset_flag_updated (b : FontAtlasBuilder) :
    Bool × FontAtlasBuilder :=
  (b.dirty, { b with dirty := false })

/-- Modelled from the spec: building at a target pixel height produces the
ordered list of per-source descriptors sized to that height, plus the backing
memory (the source blobs) that must outlive the atlas built from it. -/
def FontAtlasBuilder.build_font_source (b : FontAtlasBuilder) (size : ℚ) :
    List FontEntry × List FontFile :=
  (b.sources.map (fun s => (s, size)), b.sources)

/-- Modelled from the spec: the window-tracker state machine
`Tracking(rectangle) ⇄ TargetClosed` (terminal); `tracking none` is the
state before the first update has resolved a rectangle. -/
inductive TrackerState where
  | tracking (rect : Option Rect)
  | targetClosed
  deriving DecidableEq, Repr

/-- Modelled from the spec: `window_tracker::WindowTracker` (module
`window_tracker` is not under `src/`): the target, the tracking state, the
rectangle last applied to the overlay window, and the force-update flag. -/
structure WindowTracker where
  target : OverlayTarget
  state : TrackerState
  overlayRect : Option Rect
  forceUpdate : Bool
  deriving DecidableEq, Repr

/-- Modelled from the spec: a fresh tracker for a target, before any update. -/
def WindowTracker.new (target : OverlayTarget) : WindowTracker :=
  { target := target
    state := .tracking none
    overlayRect := none
    forceUpdate := false }

/-- Modelled from the spec: one tracker update.  `resolved` is the target's
current screen rectangle as resolved against the OS (`none` when the target
window no longer exists).  On loss the state becomes `TargetClosed` and
failure is reported upward (`false`); otherwise the overlay window is moved
to match when the rectangle changed or the force flag is set, the force flag
is cleared, and the update succeeds (`true`). -/
def WindowTracker.update (t : WindowTracker) (resolved : Option Rect) :
    WindowTracker × Bool :=
  match resolved with
  | none => ({ t with state := .targetClosed }, false)
  | some r =>
    (if t.overlayRect ≠ some r || t.forceUpdate then
      { t with
          state := .tracking (some r)
          overlayRect := some r
          forceUpdate := false }
     else
      { t with state := .tracking (some r) }, true)

/-- Modelled from the spec: request a forced geometry resynchronization on
the next update. -/
def WindowTracker.mark_force_update (t : WindowTracker) : WindowTracker :=
  { t with forceUpdate := true }

/-- Window display affinity values passed to `SetWindowDisplayAffinity`. -/
inductive DisplayAffinity where
  | WDA_NONE
  | WDA_EXCLUDEFROMCAPTURE
  deriving DecidableEq, Repr

/-- The imgui context, reduced to the state the orchestration code touches:
the font atlas contents (the list of added font entries). -/
structure ImguiContext where
  fontAtlas : List FontEntry
  deriving DecidableEq

/-- Errors surfaced by startup (`error::OverlayError`; only the
`DwmCompositionDisabled` variant is named in `lib.rs`, the others stand for
the error values propagated by `?` from external calls). -/
inductive OverlayError where
  | DwmCompositionDisabled
  | windowBuildFailed
  | dwmCallFailed
  | trackerInitFailed
  | vulkanInitFailed
  deriving DecidableEq, Repr

/-- The native overlay window as configured by `create_window`: the styles
set via `SetWindowLongA`/`SetWindowLongPtrA`, the one-time topmost pin, and
visibility (created with `with_visible(false)`). -/
structure WindowModel where
  title : String
  visible : Bool
  popupStyle : Bool
  layered : Bool
  toolWindow : Bool
  noActivate : Bool
  transparent : Bool
  topmost : Bool
  deriving DecidableEq, Repr

/-- Outcomes of the external calls made during startup, scripting the OS. -/
structure StartupEnv where
  windowBuildOk : Bool
  dwmCompositionEnabled : Option Bool
  dwmBlurOk : Bool
  trackerInitOk : Bool
  clipboardOk : Bool
  vulkanInitOk : Bool
  deriving DecidableEq, Repr

/-- Embedding of `create_window` (`lib.rs:104-151`): build the (invisible)
window, set the popup/layered/tool-window/no-activate/transparent styles,
fail with `DwmCompositionDisabled` when `DwmIsCompositionEnabled` reports
composition off, enable blur-behind, and pin the window topmost once. -/
def create_window (env : StartupEnv) (title : String) :
    Except OverlayError WindowModel :=
  if !env.windowBuildOk then .error .windowBuildFailed
  else
    let w : WindowModel :=
      { title := title
        visible := false
        popupStyle := true
        layered := true
        toolWindow := true
        noActivate := true
        transparent := true
        topmost := false }
    match env.dwmCompositionEnabled with
    | none => .error .dwmCallFailed
    | some enabled =>
      if !enabled then .error .DwmCompositionDisabled
      else if !env.dwmBlurOk then .error .dwmCallFailed
      else .ok { w with topmost := true }

/-- The startup options (`OverlayOptions`): title, target, and the optional
register-fonts callback invoked on the atlas after every rebuild. -/
structure OverlayOptions where
  title : String
  target : OverlayTarget
  register_fonts_callback : Option (List FontEntry → List FontEntry)

/-- The `System` produced by `init`: the window, the imgui context, the font
builder, the register-fonts callback, and the window tracker.  (The winit
event loop and platform and the boxed Vulkan backend carry no state the
orchestration logic reads; the backend's effects are counted by the loop.) -/
structure System where
  window : WindowModel
  imgui : ImguiContext
  imgui_fonts : FontAtlasBuilder
  imgui_register_fonts_callback : Option (List FontEntry → List FontEntry)
  window_tracker : WindowTracker
  startupWarnings : List String

/-- Embedding of `create_imgui_context` (`lib.rs:153-165`): clipboard
initialization failure is only logged as a warning and never fails the call. -/
def create_imgui_context (env : StartupEnv) : ImguiContext × List String :=
  ({ fontAtlas := [] },
   if env.clipboardOk then [] else ["Failed to initialize clipboard"])

/-- Embedding of `init` (`lib.rs:198-228`): create the tracker, the window
and the imgui context, register the three bundled fonts and the default
codepoint range 1..255, create the Vulkan backend, and assemble the System.
Every failure is propagated with `?` — no retry. -/
def init (env : StartupEnv) (options : OverlayOptions) :
    Except OverlayError System :=
  if !env.trackerInitOk then .error .trackerInitFailed
  else
    let window_tracker := WindowTracker.new options.target
    match create_window env options.title with
    | .error e => .error e
    | .ok window =>
      let ic := create_imgui_context env
      let imgui_fonts := FontAtlasBuilder.new
      let imgui_fonts := imgui_fonts.register_font .robotoRegular
      let imgui_fonts := imgui_fonts.register_font .notoSansTC
      let imgui_fonts := imgui_fonts.register_font .unifont
      let imgui_fonts := imgui_fonts.register_codepoints 1 255
      if !env.vulkanInitOk then .error .vulkanInitFailed
      else
        .ok { window := window
              imgui := ic.1
              imgui_fonts := imgui_fonts
              imgui_register_fonts_callback := options.register_fonts_callback
              window_tracker := window_tracker
              startupWarnings := ic.2 }

/-- The `SystemRuntimeController` fields the loop mutates.  The mouse,
keyboard and active-tracker input systems are per-frame scratch state with no
cross-frame invariants; their sampling is recorded as phase events instead. -/
structure SystemRuntimeController where
  hwnd : Nat
  imgui : ImguiContext
  imgui_fonts : FontAtlasBuilder
  debug_overlay_shown : Bool
  window_tracker : WindowTracker
  frame_count : Nat
  deriving DecidableEq

/-- Embedding of `SystemRuntimeController::toggle_debug_overlay`
(`lib.rs:448-450`). -/
def SystemRuntimeController.toggle_debug_overlay
    (c : SystemRuntimeController) (visible : Bool) : SystemRuntimeController :=
  { c with debug_overlay_shown := visible }

/-- Embedding of `SystemRuntimeController::debug_overlay_shown`
(`lib.rs:452-454`). -/
def SystemRuntimeController.debug_overlay_shown?
    (c : SystemRuntimeController) : Bool :=
  c.debug_overlay_shown

/-- Embedding of `SystemRuntimeController::toggle_screen_capture_visibility`
(`lib.rs:430-446`).  The controller is taken by shared reference in the
source, so nothing in it can change; the extra result components expose the
display affinity requested from `SetWindowDisplayAffinity` and the warnings
logged.  `osCallOk` scripts the OS call's success.  The function is total:
an OS failure only logs a warning, it never panics. -/
def SystemRuntimeController.toggle_screen_capture_visibility
    (c : SystemRuntimeController) (should_be_visible : Bool) (osCallOk : Bool) :
    SystemRuntimeController × DisplayAffinity × List String :=
  let target_state : DisplayAffinity :=
    if should_be_visible then .WDA_NONE else .WDA_EXCLUDEFROMCAPTURE
  let state_name : String :=
    if should_be_visible then "normal" else "exclude from capture"
  if !osCallOk then
    (c, target_state,
     ["Failed to change overlay display affinity to " ++ state_name])
  else
    (c, target_state, [])

/-- The OS-side display-affinity register: a successful
`SetWindowDisplayAffinity` call replaces the affinity, a failed one leaves
it unchanged. -/
def applyDisplayAffinity (os : DisplayAffinity) (requested : DisplayAffinity)
    (ok : Bool) : DisplayAffinity :=
  if ok then requested else os

/-- Embedding of `SystemRuntimeController::frame_rendered`
(`lib.rs:420-428`): increment the frame counter; on the very first frame
(counter transitioning 0 → 1) call `ShowWindow(hwnd, SW_SHOWNOACTIVATE)` and
mark the tracker for a forced update.  The returned Bool records whether
`ShowWindow` (show without activating) was invoked. -/
def SystemRuntimeController.frame_rendered (c : SystemRuntimeController) :
    SystemRuntimeController × Bool :=
  let c' := { c with frame_count := c.frame_count + 1 }
  ({ c' with
      window_tracker :=
        if c'.frame_count = 1 then c'.window_tracker.mark_force_update
        else c'.window_tracker },
   decide (c'.frame_count = 1))

/-- Per-iteration phase events, for stating ordering properties. -/
inductive Phase where
  | perfBegin
  | mouseSample
  | keySample
  | activeTracker
  | trackerUpdate
  | updateCallback
  | fontRebuild
  | prepareFrame
  | renderCallback
  | debugOverlay
  | backendSubmit
  | frameRendered
  deriving DecidableEq, Repr

/-- Embedding of `SystemRuntimeController::update_state` (`lib.rs:408-418`):
sample mouse then keyboard into the imgui input model, update the active
tracker, then update the window tracker; report `false` (and log) when the
target window has been closed.  `resolved` scripts the OS resolution of the
target's rectangle. -/
def SystemRuntimeController.update_state (c : SystemRuntimeController)
    (resolved : Option Rect) :
    SystemRuntimeController × Bool × List Phase :=
  let wu := c.window_tracker.update resolved
  ({ c with window_tracker := wu.1 }, wu.2,
   [Phase.mouseSample, Phase.keySample, Phase.activeTracker,
    Phase.trackerUpdate])

/-- How the main loop ended; tags the five exit sites of `main_loop`. -/
inductive ExitCause where
  | targetClosed
  | updateStop
  | prepareFail
  | renderStop
  | osClose
  deriving DecidableEq, Repr

/-- What the caller's update callback did in one frame.  Through its
`&mut SystemRuntimeController` it can mutate the public `imgui_fonts` field
(e.g. register fonts), call `toggle_debug_overlay`, and decide whether the
loop continues; the private `frame_count` and `window_tracker` fields are
not reachable through the public surface. -/
structure UpdateOutcome where
  fonts : FontAtlasBuilder
  setDebug : Option Bool
  run : Bool

/-- One iteration's external environment: the resolved target rectangle
(`none` = target window gone), the caller's update callback, the outcome of
`platform.prepare_frame`, and the caller's render callback result. -/
structure FrameEnv where
  targetRect : Option Rect
  update : FontAtlasBuilder → Bool → UpdateOutcome
  prepareOk : Bool
  renderOk : Bool

/-- Loop-level state around the controller: overlay-window visibility (set
by `ShowWindow`), the number of backend `render_frame` submissions, and the
number of backend font-texture uploads. -/
structure LoopState where
  ctl : SystemRuntimeController
  windowVisible : Bool
  submissions : Nat
  fontTextureUploads : Nat
  deriving DecidableEq

/-- Apply the optional register-fonts callback to a freshly built atlas. -/
def applyRegisterFonts (cb : Option (List FontEntry → List FontEntry))
    (atlas : List FontEntry) : List FontEntry :=
  match cb with
  | some f => f atlas
  | none => atlas

/-- Embedding of the `Event::MainEventsCleared` arm of `main_loop`
(`lib.rs:288-377`): update phase (input sync, tracker, caller update
callback), conditional font rebuild, frame preparation, caller render
callback, optional debug overlay, backend submission, `frame_rendered`.
Returns the new state, the phase trace of this iteration, and the exit
status/cause when the iteration set the control flow to exit. -/
def frameBody (cb : Option (List FontEntry → List FontEntry))
    (s : LoopState) (env : FrameEnv) :
    LoopState × List Phase × Option (Int × ExitCause) :=
  let us := s.ctl.update_state env.targetRect
  let c1 := us.1
  let trU := us.2.2
  let s1 : LoopState := { s with ctl := c1 }
  if !us.2.1 then
    (s1, trU, some (0, .targetClosed))
  else
    let out := env.update c1.imgui_fonts c1.debug_overlay_shown
    let c2 : SystemRuntimeController :=
      { c1 with
          imgui_fonts := out.fonts
          debug_overlay_shown := out.setDebug.getD c1.debug_overlay_shown }
    let s2 : LoopState := { s1 with ctl := c2 }
    let tr2 := trU ++ [Phase.updateCallback]
    if !out.run then
      (s2, tr2, some (0, .updateStop))
    else
      let flag := (c2.imgui_fonts.fetch_reset_flag_updated).1
      let c3 : SystemRuntimeController :=
        { c2 with imgui_fonts := (c2.imgui_fonts.fetch_reset_flag_updated).2 }
      let s3 : LoopState :=
        { s2 with
            ctl :=
              { c3 with
                  imgui :=
                    if flag then
                      { fontAtlas := applyRegisterFonts cb
                          (c3.imgui_fonts.build_font_source 18).1 }
                    else c3.imgui }
            fontTextureUploads :=
              if flag then s2.fontTextureUploads + 1
              else s2.fontTextureUploads }
      let tr3 := if flag then tr2 ++ [Phase.fontRebuild] else tr2
      let tr4 := tr3 ++ [Phase.prepareFrame]
      if !env.prepareOk then
        (s3, tr4, some (1, .prepareFail))
      else
        let tr5 := tr4 ++ [Phase.renderCallback]
        if !env.renderOk then
          (s3, tr5, some (0, .renderStop))
        else
          let tr6 :=
            if s3.ctl.debug_overlay_shown then tr5 ++ [Phase.debugOverlay]
            else tr5
          let s4 : LoopState := { s3 with submissions := s3.submissions + 1 }
          let fr := s4.ctl.frame_rendered
          let s5 : LoopState :=
            { s4 with
                ctl := fr.1
                windowVisible := s4.windowVisible || fr.2 }
          (s5, tr6 ++ [Phase.backendSubmit, Phase.frameRendered], none)

/-- The winit events the handler matches on: `NewEvents` (frame begin),
`MainEventsCleared` (the frame body), `WindowEvent::CloseRequested`, and
everything else (ignored). -/
inductive WinEvent where
  | newEvents
  | mainEventsCleared (env : FrameEnv)
  | closeRequested
  | other

/-- One step of the event handler closure passed to `run_return`
(`lib.rs:271-384`). -/
def stepEvent (cb : Option (List FontEntry → List FontEntry))
    (s : LoopState) (e : WinEvent) :
    LoopState × List Phase × Option (Int × ExitCause) :=
  match e with
  | .newEvents => (s, [Phase.perfBegin], none)
  | .mainEventsCleared env => frameBody cb s env
  | .closeRequested => (s, [], some (0, .osClose))
  | .other => (s, [], none)

/-- Driving the handler over a finite event script, stopping at the first
exit (winit ignores control-flow changes after an exit is set).  Returns the
final state, the concatenated phase trace, and the exit status/cause
(`none` when the script ends without an exit having been requested). -/
def runLoop (cb : Option (List FontEntry → List FontEntry)) :
    LoopState → List WinEvent → LoopState × List Phase × Option (Int × ExitCause)
  | s, [] => (s, [], none)
  | s, e :: rest =>
    let step := stepEvent cb s e
    match step.2.2 with
    | some r => (step.1, step.2.1, some r)
    | none =>
      let next := runLoop cb step.1 rest
      (next.1, step.2.1 ++ next.2.1, next.2.2)

/-- The runtime controller as constructed at the top of `main_loop`
(`lib.rs:255-268`): frame counter 0, debug overlay hidden, font builder and
tracker moved in from the System. -/
def System.initialController (sys : System) (hwnd : Nat) :
    SystemRuntimeController :=
  { hwnd := hwnd
    imgui := sys.imgui
    imgui_fonts := sys.imgui_fonts
    debug_overlay_shown := false
    window_tracker := sys.window_tracker
    frame_count := 0 }

/-- Embedding of `System::main_loop` (`lib.rs:233-387`) over an event
script: run the handler from the initial state and return what `run_return`
produces, together with the final state and trace. -/
def System.main_loop (sys : System) (hwnd : Nat) (events : List WinEvent) :
    LoopState × List Phase × Option (Int × ExitCause) :=
  runLoop sys.imgui_register_fonts_callback
    { ctl := sys.initialController hwnd
      windowVisible := false
      submissions := 0
      fontTextureUploads := 0 } events

/-- The full per-iteration phase order of `main_loop`'s frame body; the
`fontRebuild` and `debugOverlay` phases are conditional, every other phase is
mandatory in a completed iteration. -/
def frameFullOrder : List Phase :=
  [.mouseSample, .keySample, .activeTracker, .trackerUpdate, .updateCallback,
   .fontRebuild, .prepareFrame, .renderCallback, .debugOverlay,
   .backendSubmit, .frameRendered]

/-- The phases that occur in every completed iteration. -/
def frameMandatory : List Phase :=
  [.mouseSample, .keySample, .activeTracker, .trackerUpdate, .updateCallback,
   .prepareFrame, .renderCallback, .backendSubmit, .frameRendered]

/-- An update callback that mutates nothing and continues the loop. -/
def idUpdate : FontAtlasBuilder → Bool → UpdateOutcome :=
  fun fonts _ => { fonts := fonts, setDebug := none, run := true }

/-- A frame in which every external outcome is benign: target resolved,
update callback continues, frame preparation succeeds, render continues. -/
def goodEnv (r : Rect) : FrameEnv :=
  { targetRect := some r, update := idUpdate, prepareOk := true,
    renderOk := true }

/-- A frame whose render callback returns the stop signal. -/
def stopRenderEnv (r : Rect) : FrameEnv :=
  { targetRect := some r, update := idUpdate, prepareOk := true,
    renderOk := false }

/-- A frame in which the GUI toolkit's frame preparation fails. -/
def prepareFailEnv (r : Rect) : FrameEnv :=
  { targetRect := some r, update := idUpdate, prepareOk := false,
    renderOk := true }

/-- A frame in which the target window no longer exists. -/
def targetGoneEnv : FrameEnv :=
  { targetRect := none, update := idUpdate, prepareOk := true,
    renderOk := true }

/-- Event script with `n` fully successful frames followed by one frame on
which the render callback returns stop for the first time (so the stop
happens on frame `n + 1`). -/
def renderStopScript (r : Rect) (n : Nat) : List WinEvent :=
  (List.replicate n [WinEvent.newEvents,
                     WinEvent.mainEventsCleared (goodEnv r)]).flatten
    ++ [WinEvent.newEvents, WinEvent.mainEventsCleared (stopRenderEnv r)]

/-- A startup environment in which every external call succeeds. -/
def envOkA : StartupEnv :=
  { windowBuildOk := true, dwmCompositionEnabled := some true,
    dwmBlurOk := true, trackerInitOk := true, clipboardOk := true,
    vulkanInitOk := true }

/-- A startup environment in which the desktop compositor is disabled. -/
def envNoComp : StartupEnv :=
  { windowBuildOk := true, dwmCompositionEnabled := some false,
    dwmBlurOk := true, trackerInitOk := true, clipboardOk := true,
    vulkanInitOk := true }

/-- Concrete startup options with no register-fonts callback. -/
def optionsA : OverlayOptions :=
  { title := "overlay", target := .window 7, register_fonts_callback := none }

/-- The System `init envOkA optionsA` produces, written out. -/
def sysA : System :=
  { window :=
      { title := "overlay", visible := false, popupStyle := true,
        layered := true, toolWindow := true, noActivate := true,
        transparent := true, topmost := true }
    imgui := { fontAtlas := [] }
    imgui_fonts :=
      { sources := [.robotoRegular, .notoSansTC, .unifont],
        ranges := [(1, 255)], dirty := true }
    imgui_register_fonts_callback := none
    window_tracker := WindowTracker.new (.window 7)
    startupWarnings := [] }

/-- A concrete runtime controller, as `main_loop` would build it for `sysA`. -/
def ctlA : SystemRuntimeController :=
  sysA.initialController 1

/-- A concrete loop state at the start of `main_loop` for `sysA`. -/
def stateA : LoopState :=
  { ctl := ctlA, windowVisible := false, submissions := 0,
    fontTextureUploads := 0 }

/-- Exit decision of one frame body, as a standalone function of the frame
environment (the state only matters through the tracker update result);
tabulates the four in-frame exit sites of `main_loop`. -/
def frameExit (s : LoopState) (env : FrameEnv) : Option (Int × ExitCause) :=
  let us := s.ctl.update_state env.targetRect
  if !us.2.1 then some (0, .targetClosed)
  else
    let out := env.update us.1.imgui_fonts us.1.debug_overlay_shown
    if !out.run then some (0, .updateStop)
    else if !env.prepareOk then some (1, .prepareFail)
    else if !env.renderOk then some (0, .renderStop)
    else none

/-- The per-iteration phase trace of a completed frame, parameterized by
whether the conditional font rebuild and the debug overlay ran. -/
def mkTrace (rebuild dbg : Bool) : List Phase :=
  [.mouseSample, .keySample, .activeTracker, .trackerUpdate, .updateCallback]
  ++ (if rebuild then [.fontRebuild] else [])
  ++ [.prepareFrame, .renderCallback]
  ++ (if dbg then [.debugOverlay] else [])
  ++ [.backendSubmit, .frameRendered]

/-- The font builder as the frame's rebuild check sees it: after the
tracker update and the caller's update callback have run. -/
def fontsAtRebuildCheck (s : LoopState) (env : FrameEnv) : FontAtlasBuilder :=
  (env.update (s.ctl.update_state env.targetRect).1.imgui_fonts
    (s.ctl.update_state env.targetRect).1.debug_overlay_shown).fonts

theorem frameBody_exit (cb : Option (List FontEntry → List FontEntry))
    (s : LoopState) (env : FrameEnv) :
    (frameBody cb s env).2.2 = frameExit s env := by
  unfold frameBody frameExit
  cases h1 : (s.ctl.update_state env.targetRect).2.1
  · simp [h1]
  · cases h2 : (env.update (s.ctl.update_state env.targetRect).1.imgui_fonts
        (s.ctl.update_state env.targetRect).1.debug_overlay_shown).run
    · simp [h1, h2]
    · cases h3 : env.prepareOk
      · simp [h1, h2, h3]
      · cases h4 : env.renderOk <;> simp [h1, h2, h3, h4]

theorem frameExit_code (s : LoopState) (env : FrameEnv) (code : Int)
    (k : ExitCause) (h : frameExit s env = some (code, k)) :
    code = if k = .prepareFail then 1 else 0 := by
  simp only [frameExit] at h
  split_ifs at h <;>
    simp only [Option.some.injEq, Prod.mk.injEq, reduceCtorEq] at h <;>
    obtain ⟨rfl, rfl⟩ := h <;> decide

theorem stepEvent_exit_code (cb : Option (List FontEntry → List FontEntry))
    (s : LoopState) (e : WinEvent) (code : Int) (k : ExitCause)
    (h : (stepEvent cb s e).2.2 = some (code, k)) :
    code = if k = .prepareFail then 1 else 0 := by
  cases e with
  | newEvents => simp [stepEvent] at h
  | mainEventsCleared env =>
    rw [stepEvent, frameBody_exit] at h
    exact frameExit_code s env code k h
  | closeRequested => simp [stepEvent] at h; simp [h.1.symm, h.2.symm]
  | other => simp [stepEvent] at h

theorem runLoop_exit_code (cb : Option (List FontEntry → List FontEntry)) :
    ∀ (events : List WinEvent) (s : LoopState) (code : Int) (k : ExitCause),
    (runLoop cb s events).2.2 = some (code, k) →
    code = if k = .prepareFail then 1 else 0 := by
  intro events
  induction events with
  | nil => intro s code k h; simp [runLoop] at h
  | cons e rest ih =>
    intro s code k h
    rw [runLoop] at h
    cases hex : (stepEvent cb s e).2.2 with
    | none => simp [hex] at h; exact ih _ code k h
    | some r =>
      simp [hex] at h
      exact stepEvent_exit_code cb s e code k (by rw [hex, h])

/-- C1: the main loop's exit status is 0 for every normal termination and a
distinct non-zero code exactly when GUI frame preparation fails: for every
run of `main_loop`, the returned status is non-zero if and only if the loop
ended via a frame-preparation failure. -/
theorem main_loop_status_nonzero_iff_prepare_failure
    (sys : System) (hwnd : Nat) (events : List WinEvent)
    (code : Int) (cause : ExitCause)
    (h : (sys.main_loop hwnd events).2.2 = some (code, cause)) :
    code ≠ 0 ↔ cause = .prepareFail := by
  rw [System.main_loop] at h
  have hc := runLoop_exit_code sys.imgui_register_fonts_callback events _
    code cause h
  subst hc
  cases cause <;> simp

theorem main_loop_status_nonzero_witness :
    (sysA.main_loop 1 [.newEvents,
        .mainEventsCleared (prepareFailEnv ⟨0, 0, 800, 600⟩)]).2.2
      = some (1, .prepareFail)
    ∧ ((1 : Int) ≠ 0 ↔ ExitCause.prepareFail = .prepareFail) :=
  ⟨by decide,
   main_loop_status_nonzero_iff_prepare_failure sysA 1
     [.newEvents, .mainEventsCleared (prepareFailEnv ⟨0, 0, 800, 600⟩)]
     1 .prepareFail (by decide)⟩

/-- C3: in the iteration whose window-tracker update reports the target
lost, the loop exits with status 0 immediately: the iteration's trace stops
at the tracker update (no caller callback, no font rebuild, no backend
submission), the state is unchanged except the tracker's transition to
`TargetClosed`, and the remaining events of the script are never
processed. -/
theorem target_loss_stops_loop (cb : Option (List FontEntry → List FontEntry))
    (s : LoopState) (env : FrameEnv) (rest : List WinEvent)
    (h : env.targetRect = none) :
    frameBody cb s env =
      ({ s with ctl := { s.ctl with window_tracker :=
          { s.ctl.window_tracker with state := .targetClosed } } },
       [Phase.mouseSample, Phase.keySample, Phase.activeTracker,
        Phase.trackerUpdate],
       some (0, .targetClosed))
    ∧ runLoop cb s (.mainEventsCleared env :: rest) =
      ({ s with ctl := { s.ctl with window_tracker :=
          { s.ctl.window_tracker with state := .targetClosed } } },
       [Phase.mouseSample, Phase.keySample, Phase.activeTracker,
        Phase.trackerUpdate],
       some (0, .targetClosed)) := by
  have hb : frameBody cb s env =
      ({ s with ctl := { s.ctl with window_tracker :=
          { s.ctl.window_tracker with state := .targetClosed } } },
       [Phase.mouseSample, Phase.keySample, Phase.activeTracker,
        Phase.trackerUpdate],
       some (0, .targetClosed)) := by
    unfold frameBody
    simp [h, SystemRuntimeController.update_state, WindowTracker.update]
  refine ⟨hb, ?_⟩
  rw [runLoop]
  simp [stepEvent, hb]

theorem target_loss_stops_loop_witness :
    frameBody none stateA targetGoneEnv =
      ({ stateA with ctl := { ctlA with window_tracker :=
          { ctlA.window_tracker with state := .targetClosed } } },
       [Phase.mouseSample, Phase.keySample, Phase.activeTracker,
        Phase.trackerUpdate],
       some (0, .targetClosed)) :=
  (target_loss_stops_loop none stateA targetGoneEnv [] rfl).1

/-- C6: `frame_rendered` increments the frame counter by exactly one, and
exactly on the counter's 0 → 1 transition it shows the overlay window
without activating it (the returned Bool records the
`ShowWindow(SW_SHOWNOACTIVATE)` call) and marks the window tracker for a
forced geometry resynchronization; on every later frame it changes nothing
but the counter. -/
theorem frame_rendered_first_frame (c : SystemRuntimeController) :
    c.frame_rendered.1.frame_count = c.frame_count + 1
    ∧ (c.frame_rendered.2 = true ↔ c.frame_count = 0)
    ∧ (c.frame_count = 0 →
        c.frame_rendered.1 =
          { c with frame_count := 1,
                   window_tracker := c.window_tracker.mark_force_update })
    ∧ (c.frame_count ≠ 0 →
        c.frame_rendered.1 = { c with frame_count := c.frame_count + 1 }) := by
  unfold SystemRuntimeController.frame_rendered
  by_cases h : c.frame_count = 0 <;> simp [h]

theorem frame_rendered_first_frame_witness :
    ctlA.frame_rendered.1 =
      { ctlA with frame_count := 1,
                  window_tracker := ctlA.window_tracker.mark_force_update } :=
  (frame_rendered_first_frame ctlA).2.2.1 rfl

/-- C7: when the desktop compositor is unavailable, `create_window` fails
with the dedicated `DwmCompositionDisabled` error, `init` propagates it as
a construction failure without retrying, and no `System` value is produced
from that call. -/
theorem composition_disabled_aborts_init (env : StartupEnv)
    (options : OverlayOptions)
    (h1 : env.trackerInitOk = true) (h2 : env.windowBuildOk = true)
    (h3 : env.dwmCompositionEnabled = some false) :
    create_window env options.title = .error .DwmCompositionDisabled
    ∧ init env options = .error .DwmCompositionDisabled
    ∧ ∀ sys : System, init env options ≠ .ok sys := by
  have hw : create_window env options.title = .error .DwmCompositionDisabled := by
    unfold create_window
    simp [h2, h3]
  have hi : init env options = .error .DwmCompositionDisabled := by
    unfold init
    simp [h1, hw]
  refine ⟨hw, hi, ?_⟩
  intro sys hcontra
  rw [hi] at hcontra
  exact Except.noConfusion hcontra

theorem composition_disabled_aborts_init_witness :
    init envNoComp optionsA = .error .DwmCompositionDisabled :=
  (composition_disabled_aborts_init envNoComp optionsA rfl rfl rfl).2.1

/-- C8: whenever `init` succeeds, the font builder it hands to the loop has
registered exactly the three bundled font sources in fallback-priority
order — the primary Latin face, the CJK-coverage face, the wide-coverage
fallback face — and exactly the default codepoint range 1..255 (codepoints
1 through 254), nothing else; the builder is left dirty for the first
frame's build. -/
theorem init_registers_default_fonts (env : StartupEnv)
    (options : OverlayOptions) (sys : System)
    (h : init env options = .ok sys) :
    sys.imgui_fonts.sources = [.robotoRegular, .notoSansTC, .unifont]
    ∧ sys.imgui_fonts.ranges = [(1, 255)]
    ∧ sys.imgui_fonts.dirty = true := by
  unfold init at h
  rcases hw : create_window env options.title with e | w <;> rw [hw] at h <;>
    split_ifs at h <;>
    simp only [Except.ok.injEq, reduceCtorEq] at h
  subst h
  exact ⟨rfl, rfl, rfl⟩

theorem init_registers_default_fonts_witness :
    sysA.imgui_fonts.sources = [.robotoRegular, .notoSansTC, .unifont]
    ∧ sysA.imgui_fonts.ranges = [(1, 255)]
    ∧ sysA.imgui_fonts.dirty = true :=
  init_registers_default_fonts envOkA optionsA sysA rfl

/-- C9: toggling screen-capture visibility twice with the same value
requests the same display affinity both times and changes nothing beyond
the first call: the controller is never modified (the method takes a shared
reference), and a second successful identical call leaves the OS affinity
where the first put it; an OS-call failure logs a warning (and a success
logs nothing) while the controller is still untouched — the function is
total, so it never panics. -/
theorem capture_toggle_idempotent (c : SystemRuntimeController) (v : Bool)
    (ok1 ok2 : Bool) (os : DisplayAffinity) :
    (c.toggle_screen_capture_visibility v ok1).1 = c
    ∧ ((c.toggle_screen_capture_visibility v ok1).1.toggle_screen_capture_visibility
        v ok2).1 = c
    ∧ ((c.toggle_screen_capture_visibility v ok1).1.toggle_screen_capture_visibility
        v ok2).2.1 = (c.toggle_screen_capture_visibility v ok1).2.1
    ∧ applyDisplayAffinity
        (applyDisplayAffinity os (c.toggle_screen_capture_visibility v ok1).2.1 true)
        ((c.toggle_screen_capture_visibility v ok1).1.toggle_screen_capture_visibility
          v ok2).2.1 true
      = applyDisplayAffinity os (c.toggle_screen_capture_visibility v ok1).2.1 true
    ∧ (ok1 = false → (c.toggle_screen_capture_visibility v ok1).2.2 ≠ [])
    ∧ (ok1 = true → (c.toggle_screen_capture_visibility v ok1).2.2 = []) := by
  cases v <;> cases ok1 <;> cases ok2 <;>
    simp [SystemRuntimeController.toggle_screen_capture_visibility,
      applyDisplayAffinity]

theorem capture_toggle_idempotent_witness :
    (ctlA.toggle_screen_capture_visibility false false).2.2 ≠ [] :=
  (capture_toggle_idempotent ctlA false false false .WDA_NONE).2.2.2.2.1 rfl

/-- C10: the debug overlay starts hidden (the flag is initialized to false
by `main_loop`), `debug_overlay_shown` returns exactly the value passed to
the most recent `toggle_debug_overlay` call, and `toggle_debug_overlay`
modifies no field of the runtime controller other than the debug-overlay
flag. -/
theorem debug_overlay_flag_semantics (sys : System) (hwnd : Nat)
    (c : SystemRuntimeController) (vs : List Bool) (v : Bool) :
    (sys.initialController hwnd).debug_overlay_shown? = false
    ∧ (c.toggle_debug_overlay v).debug_overlay_shown? = v
    ∧ ((vs ++ [v]).foldl SystemRuntimeController.toggle_debug_overlay
        c).debug_overlay_shown? = v
    ∧ c.toggle_debug_overlay v = { c with debug_overlay_shown := v } := by
  refine ⟨rfl, rfl, ?_, rfl⟩
  rw [List.foldl_append]
  rfl

theorem frameBody_trace_shape (cb : Option (List FontEntry → List FontEntry))
    (s : LoopState) (env : FrameEnv)
    (h : (frameBody cb s env).2.2 = none) :
    ∃ rebuild dbg : Bool, (frameBody cb s env).2.1 = mkTrace rebuild dbg := by
  have hx : frameExit s env = none := by rw [← frameBody_exit cb s env]; exact h
  simp only [frameExit] at hx
  split_ifs at hx with h1 h2 h3 h4 <;> try simp at hx
  simp at h1 h2 h3 h4
  unfold frameBody
  simp [h1, h2, h3, h4, mkTrace]
  split_ifs <;> simp [mkTrace, SystemRuntimeController.update_state]

/-- C2: in every loop iteration that completes its render phase, the phases
run in the strict order mouse sampling, keyboard sampling, active-window
tracking, window-tracker update, caller update callback, conditional font
rebuild, frame preparation, caller render callback, optional debug overlay,
backend frame submission, post-frame bookkeeping: the iteration's trace is
an ordered selection from `frameFullOrder`, contains every mandatory phase
in that order, and repeats no phase. -/
theorem frame_phase_order (cb : Option (List FontEntry → List FontEntry))
    (s : LoopState) (env : FrameEnv)
    (h : (frameBody cb s env).2.2 = none) :
    List.Sublist (frameBody cb s env).2.1 frameFullOrder
    ∧ List.Sublist frameMandatory (frameBody cb s env).2.1
    ∧ (frameBody cb s env).2.1.Nodup := by
  obtain ⟨b1, b2, htr⟩ := frameBody_trace_shape cb s env h
  rw [htr]
  cases b1 <;> cases b2 <;> exact ⟨by decide, by decide, by decide⟩

theorem frame_phase_order_witness :
    List.Sublist (frameBody none stateA (goodEnv ⟨0, 0, 800, 600⟩)).2.1
      frameFullOrder
    ∧ List.Sublist frameMandatory
        (frameBody none stateA (goodEnv ⟨0, 0, 800, 600⟩)).2.1
    ∧ (frameBody none stateA (goodEnv ⟨0, 0, 800, 600⟩)).2.1.Nodup :=
  frame_phase_order none stateA (goodEnv ⟨0, 0, 800, 600⟩) (by decide)

theorem frameBody_goodEnv (cb : Option (List FontEntry → List FontEntry))
    (s : LoopState) (r : Rect) :
    (frameBody cb s (goodEnv r)).2.2 = none
    ∧ (frameBody cb s (goodEnv r)).1.submissions = s.submissions + 1 := by
  constructor
  · rw [frameBody_exit]
    simp [frameExit, goodEnv, idUpdate, SystemRuntimeController.update_state,
      WindowTracker.update]
  · unfold frameBody
    simp [goodEnv, idUpdate, SystemRuntimeController.update_state,
      WindowTracker.update]

theorem frameBody_stopRenderEnv (cb : Option (List FontEntry → List FontEntry))
    (s : LoopState) (r : Rect) :
    (frameBody cb s (stopRenderEnv r)).2.2 = some (0, .renderStop)
    ∧ (frameBody cb s (stopRenderEnv r)).1.submissions = s.submissions := by
  constructor
  · rw [frameBody_exit]
    simp [frameExit, stopRenderEnv, idUpdate,
      SystemRuntimeController.update_state, WindowTracker.update]
  · unfold frameBody
    simp [stopRenderEnv, idUpdate, SystemRuntimeController.update_state,
      WindowTracker.update]

theorem renderStopScript_zero (r : Rect) :
    renderStopScript r 0 =
      [.newEvents, .mainEventsCleared (stopRenderEnv r)] := by
  simp [renderStopScript]

theorem renderStopScript_succ (r : Rect) (n : Nat) :
    renderStopScript r (n + 1) =
      WinEvent.newEvents :: .mainEventsCleared (goodEnv r)
        :: renderStopScript r n := by
  simp [renderStopScript, List.replicate_succ]

theorem runLoop_renderStopScript
    (cb : Option (List FontEntry → List FontEntry)) (r : Rect) :
    ∀ (n : Nat) (s : LoopState),
    (runLoop cb s (renderStopScript r n)).2.2 = some (0, .renderStop)
    ∧ (runLoop cb s (renderStopScript r n)).1.submissions
        = s.submissions + n := by
  intro n
  induction n with
  | zero =>
    intro s
    have hstop := frameBody_stopRenderEnv cb s r
    rw [renderStopScript_zero, runLoop]
    simp only [stepEvent]
    rw [runLoop]
    simp [stepEvent, hstop.1, hstop.2]
  | succ n ih =>
    intro s
    have hg := frameBody_goodEnv cb s r
    rw [renderStopScript_succ, runLoop]
    simp only [stepEvent]
    rw [runLoop]
    simp only [stepEvent]
    rw [hg.1]
    have hi := ih (frameBody cb s (goodEnv r)).1
    refine ⟨hi.1, ?_⟩
    show (runLoop cb (frameBody cb s (goodEnv r)).1
        (renderStopScript r n)).1.submissions = s.submissions + (n + 1)
    rw [hi.2, hg.2]
    omega

/-- C4 (corrected): if the caller's render callback returns the stop signal
for the first time on frame N (here N = n + 1; the render callback of the
first n frames continues, the next one stops), the loop performs exactly
N − 1 backend render submissions — the stopping frame's draw data is never
submitted — and exits with status 0. -/
theorem render_stop_submission_count (sys : System) (hwnd : Nat) (r : Rect)
    (n : Nat) :
    (sys.main_loop hwnd (renderStopScript r n)).2.2
      = some (0, .renderStop)
    ∧ (sys.main_loop hwnd (renderStopScript r n)).1.submissions = n := by
  have h := runLoop_renderStopScript sys.imgui_register_fonts_callback r n
    { ctl := sys.initialController hwnd
      windowVisible := false
      submissions := 0
      fontTextureUploads := 0 }
  rw [System.main_loop]
  exact ⟨h.1, by rw [h.2]; exact Nat.zero_add n⟩

/-- C4 counterexample: in a run whose render callback returns stop for the
first time on frame 5, the loop exits with status 0 after exactly 4 backend
render submissions — not the 5 the claim states (the stopping frame is not
submitted). -/
theorem render_stop_frame5_counterexample :
    (sysA.main_loop 1 (renderStopScript ⟨0, 0, 800, 600⟩ 4)).2.2
      = some (0, .renderStop)
    ∧ (sysA.main_loop 1 (renderStopScript ⟨0, 0, 800, 600⟩ 4)).1.submissions = 4
    ∧ ¬(sysA.main_loop 1 (renderStopScript ⟨0, 0, 800, 600⟩ 4)).1.submissions
        = 5 :=
  ⟨by decide, by decide, by decide⟩

/-- C5: in every frame that reaches the rebuild check, the font rebuild runs
if and only if the builder's dirty flag is set at that point; when it runs,
the imgui atlas is replaced by the registered sources rebuilt at the fixed
base pixel size 18 with the optional register-fonts callback applied, and
the backend receives one font-texture upload; when it does not run, the
atlas and upload count are untouched; in either case the dirty flag is
false afterwards. -/
theorem font_rebuild_iff_dirty (cb : Option (List FontEntry → List FontEntry))
    (s : LoopState) (env : FrameEnv)
    (hAlive : (s.ctl.update_state env.targetRect).2.1 = true)
    (hRun : (env.update (s.ctl.update_state env.targetRect).1.imgui_fonts
        (s.ctl.update_state env.targetRect).1.debug_overlay_shown).run
      = true) :
    (Phase.fontRebuild ∈ (frameBody cb s env).2.1 ↔
        (fontsAtRebuildCheck s env).dirty = true)
    ∧ (frameBody cb s env).1.ctl.imgui_fonts.dirty = false
    ∧ ((fontsAtRebuildCheck s env).dirty = true →
        (frameBody cb s env).1.ctl.imgui.fontAtlas =
          applyRegisterFonts cb
            ((fontsAtRebuildCheck s env).build_font_source 18).1
        ∧ (frameBody cb s env).1.fontTextureUploads
            = s.fontTextureUploads + 1)
    ∧ ((fontsAtRebuildCheck s env).dirty = false →
        (frameBody cb s env).1.ctl.imgui = s.ctl.imgui
        ∧ (frameBody cb s env).1.fontTextureUploads
            = s.fontTextureUploads) := by
  unfold frameBody fontsAtRebuildCheck
  simp [hAlive, hRun, FontAtlasBuilder.fetch_reset_flag_updated,
    FontAtlasBuilder.build_font_source]
  split_ifs <;>
    simp_all [SystemRuntimeController.update_state,
      FontAtlasBuilder.build_font_source,
      SystemRuntimeController.frame_rendered]

theorem font_rebuild_iff_dirty_witness :
    (frameBody none stateA (goodEnv ⟨0, 0, 800, 600⟩)).1.ctl.imgui.fontAtlas =
      applyRegisterFonts none
        ((fontsAtRebuildCheck stateA
          (goodEnv ⟨0, 0, 800, 600⟩)).build_font_source 18).1
    ∧ (frameBody none stateA
        (goodEnv ⟨0, 0, 800, 600⟩)).1.fontTextureUploads = 1 :=
  (font_rebuild_iff_dirty none stateA (goodEnv ⟨0, 0, 800, 600⟩)
    (by decide) (by decide)).2.2.1 (by decide)

end Overlay
